import Mathlib

/-!
# Verification of the Vehicle Parking App core

Shallow embedding of the parking application's core logic:

* `models.py`: the `_manage_parking_spots` SQLAlchemy listener attached to the
  `set` event of `ParkingLot.number_of_spots` (capacity reconciliation), and
  the data model (`ParkingSpot`, `Reservation`, statuses).
* `app.py`: the lifecycle controller routes `reserve_spot`, `occupy_spot`,
  `release_spot`, and the billing function `calculate_cost`.

Numbers: timestamps are modelled as rational seconds; currency as rationals
(Python floats are abstracted to exact rational arithmetic, with Python's
round-half-to-even `round(x, 2)` modelled exactly on rationals).

SQLAlchemy `set`-event semantics, modelled faithfully: a listener registered
with `event.listen(attr, 'set', fn)` (no `retval=True`) runs *before* the
attribute is written, its return value is discarded, and the originally
assigned value is then stored — including when the listener itself assigned
the attribute meanwhile (that nested write completes first, then is
overwritten by the outer one).
-/

namespace Parking

/-- `SpotStatus` enumeration from `models.py`. -/
inductive SpotStatus where
  | available
  | reserved
  | occupied
deriving DecidableEq, Repr

/-- The `.value` of the Python `str`-based enum `SpotStatus`. -/
def SpotStatus.value : SpotStatus → String
  | .available => "available"
  | .reserved => "reserved"
  | .occupied => "occupied"

/-- A row of the `parking_spots` table: primary key, zero-padded label
(`spot_number`), status, and owning lot (`parking_lot_id`). -/
structure Spot where
  id : Nat
  spot_number : String
  status : SpotStatus
  lotId : Nat
deriving DecidableEq, Repr

/-- The state of one parking lot as seen by the `_manage_parking_spots`
listener: its persisted spot rows, the in-memory `number_of_spots` field,
and the next auto-increment id for new spot rows. -/
structure LotState where
  lotId : Nat
  spots : List Spot
  declared : Int
  nextId : Nat
deriving DecidableEq, Repr

/-- Python's `str(n).zfill(3)`. -/
def zfill3 (n : Nat) : String :=
  let s := toString n
  if s.length < 3 then String.mk (List.replicate (3 - s.length) '0') ++ s else s

/-- Lexicographic comparison of character lists by code point (the string
order used by the database when sorting the TEXT column `spot_number`). -/
def charListLt : List Char → List Char → Bool
  | [], [] => false
  | [], _ :: _ => true
  | _ :: _, [] => false
  | a :: as, b :: bs =>
    if a.toNat < b.toNat then true
    else if b.toNat < a.toNat then false
    else charListLt as bs

/-- Lexicographic string comparison (strictly less). -/
def strLt (a b : String) : Bool := charListLt a.data b.data

/-- Descending-label comparison used by `order_by(ParkingSpot.spot_number.desc())`
(string comparison, as `spot_number` is a `String` column). -/
def spotDescBefore (a b : Spot) : Prop := strLt a.spot_number b.spot_number = false

instance : DecidableRel spotDescBefore :=
  fun a b => inferInstanceAs (Decidable (strLt a.spot_number b.spot_number = false))

/-- Spots of a lot sorted by `spot_number` descending. -/
def sortByLabelDesc (l : List Spot) : List Spot :=
  l.insertionSort spotDescBefore

/-- Result of the removal loop of `_manage_parking_spots`:
the remaining rows, the `successfully_removed` counter, and the
`blocked_spots` strings `f"{spot.spot_number}({spot.status.value})"`. -/
structure ShrinkResult where
  spots : List Spot
  removed : Nat
  blocked : List String
deriving Repr

/-- The `value < existing_spots_count` branch of `_manage_parking_spots`:
the `spots_to_remove` highest-labelled rows are candidates; each candidate
with status AVAILABLE is deleted, every other candidate is recorded as
blocked. -/
def shrinkSpots (spots : List Spot) (k : Nat) : ShrinkResult :=
  let excess := (sortByLabelDesc spots).take k
  let toDelete := excess.filter (fun s => decide (s.status = SpotStatus.available))
  { spots := spots.filter (fun s => decide (s ∉ toDelete))
    removed := toDelete.length
    blocked := (excess.filter (fun s => decide (s.status ≠ SpotStatus.available))).map
      (fun s => s.spot_number ++ "(" ++ s.status.value ++ ")") }

/-- Observable outcome of assigning `number_of_spots`: the resulting lot
state together with the listener's internal counters. -/
structure SetOutcome where
  state : LotState
  added : Nat
  removed : Nat
  blocked : List String
deriving Repr

/-- One assignment `lot.number_of_spots = v`, fuelled to account for the
nested assignment the listener performs when removals are blocked (the
nested listener finds `value == existing_spots_count` and does nothing
further, so fuel 2 covers every reachable execution).

Faithful to SQLAlchemy `set`-event semantics: the listener body runs first
(possibly re-entering on `target.number_of_spots = actual_capacity`), and
afterwards the *originally assigned* value `v` is stored in the field,
because the listener is not registered with `retval=True`. -/
def setNumberOfSpotsAux : Nat → LotState → Int → SetOutcome
  | 0, st, v => ⟨{ st with declared := v }, 0, 0, []⟩
  | fuel + 1, st, v =>
    -- `if not isinstance(value, int) or value <= 0: return` (attribute still set)
    if v ≤ 0 then ⟨{ st with declared := v }, 0, 0, []⟩
    -- `if value == previous: return`
    else if v = st.declared then ⟨{ st with declared := v }, 0, 0, []⟩
    else
      let C := st.spots.length
      if (C : Int) < v then
        -- add spots labelled `str(n).zfill(3)` for n in `range(C + 1, value + 1)`
        let n := (v - C).toNat
        let newSpots := (List.range n).map
          (fun i => Spot.mk (st.nextId + i) (zfill3 (C + 1 + i)) SpotStatus.available st.lotId)
        ⟨⟨st.lotId, st.spots ++ newSpots, v, st.nextId + n⟩, n, 0, []⟩
      else if v < (C : Int) then
        let r := shrinkSpots st.spots ((C : Int) - v).toNat
        let st' : LotState := ⟨st.lotId, r.spots, st.declared, st.nextId⟩
        if r.blocked = [] then
          ⟨{ st' with declared := v }, 0, r.removed, r.blocked⟩
        else
          -- `target.number_of_spots = actual_capacity` re-enters the listener,
          -- then the outer assignment overwrites the field with `v`
          let inner := setNumberOfSpotsAux fuel st' ((C : Int) - r.removed)
          ⟨{ inner.state with declared := v }, 0, r.removed, r.blocked⟩
      else ⟨{ st with declared := v }, 0, 0, []⟩

/-- Assignment to `ParkingLot.number_of_spots` with its reconciliation
listener (entry point). -/
def setNumberOfSpots (st : LotState) (v : Int) : SetOutcome :=
  setNumberOfSpotsAux 2 st v

/-! ## Billing (`calculate_cost` in `app.py`) -/

/-- Floor of a rational (`q.den` is positive, so flooring division of the
numerator by the denominator). -/
def ratFloor (q : ℚ) : ℤ := Int.fdiv q.num (q.den : ℤ)

/-- Round to the nearest integer, ties to even — Python 3's `round`. -/
def roundHalfEven (q : ℚ) : ℤ :=
  let f := ratFloor q
  let r := q - (f : ℚ)
  if r < 1 / 2 then f
  else if 1 / 2 < r then f + 1
  else if f % 2 = 0 then f else f + 1

/-- Python's `round(x, 2)` on exact rationals. -/
def round2 (q : ℚ) : ℚ := ((roundHalfEven (q * 100) : ℚ)) / 100

/-- `calculate_cost` from `app.py`: uses `end_time` when set, otherwise the
current time; duration in fractional hours with a one-hour minimum;
result rounded to 2 decimal places. Timestamps are rational seconds. -/
def calculate_cost (start_time : ℚ) (end_time : Option ℚ) (now : ℚ)
    (price_per_hour : ℚ) : ℚ :=
  let current_time := end_time.getD now
  let total_hours := max 1 ((current_time - start_time) / 3600)
  round2 (total_hours * price_per_hour)

/-! ## Lifecycle controller (`reserve_spot`, `occupy_spot`, `release_spot`) -/

/-- The columns of `parking_lots` the lifecycle controller reads. -/
structure ParkingLotRow where
  id : Nat
  price_per_hour : ℚ
deriving DecidableEq, Repr

/-- A row of the `reservations` table. -/
structure Reservation where
  id : Nat
  user_id : Nat
  parking_spot_id : Nat
  vehicle_number : String
  start_time : ℚ
  occupy_time : Option ℚ
  end_time : Option ℚ
deriving DecidableEq, Repr

/-- The persisted state the lifecycle routes act on. -/
structure DB where
  lots : List ParkingLotRow
  spots : List Spot
  reservations : List Reservation
  nextResId : Nat
deriving DecidableEq, Repr

/-- The failure modes of the three lifecycle routes (each surfaced as a
flash-and-redirect without committing any change). -/
inductive AppError where
  | alreadyActiveReservation
  | noAvailableSpot
  | reservationNotFound
  | alreadyCompleted
  | missingVehicleNumber
deriving DecidableEq, Repr

/-- `db.query(Reservation).filter_by(user_id=u, end_time=None).first()` is
some row. -/
def hasActiveReservation (db : DB) (u : Nat) : Bool :=
  (db.reservations.find? (fun r => decide (r.user_id = u ∧ r.end_time = none))).isSome

/-- `db.query(ParkingSpot).filter_by(parking_lot_id=lot_id, status=AVAILABLE).first()`. -/
def findAvailableSpot (db : DB) (lotId : Nat) : Option Spot :=
  db.spots.find? (fun s => decide (s.lotId = lotId ∧ s.status = SpotStatus.available))

/-- `db.query(Reservation).filter_by(id=rid, user_id=u).first()`. -/
def findUserReservation (db : DB) (u rid : Nat) : Option Reservation :=
  db.reservations.find? (fun r => decide (r.id = rid ∧ r.user_id = u))

/-- Python's `str.strip()`: drop leading and trailing whitespace. -/
def strip (s : String) : String :=
  String.mk (((s.data.dropWhile Char.isWhitespace).reverse.dropWhile
    Char.isWhitespace).reverse)

/-- `reservation.parking_spot.parking_lot.price_per_hour` (0 if dangling —
unreachable under the schema's foreign keys). -/
def ratePerHour (db : DB) (spotId : Nat) : ℚ :=
  match db.spots.find? (fun s => decide (s.id = spotId)) with
  | none => 0
  | some s =>
    match db.lots.find? (fun l => decide (l.id = s.lotId)) with
    | none => 0
    | some l => l.price_per_hour

/-- `reserve_spot(lot_id)` for user `u` at time `now`: refuse if the user
already has an open reservation; refuse if the lot has no AVAILABLE spot;
otherwise mark the found spot RESERVED and insert a reservation with blank
vehicle number, `start_time = now`, null `occupy_time`/`end_time`. -/
def reserve (db : DB) (u lotId : Nat) (now : ℚ) : DB × Except AppError Unit :=
  if hasActiveReservation db u then
    (db, .error .alreadyActiveReservation)
  else
    match findAvailableSpot db lotId with
    | none => (db, .error .noAvailableSpot)
    | some spot =>
      ({ db with
          spots := db.spots.map (fun s =>
            if s.id = spot.id then { s with status := SpotStatus.reserved } else s)
          reservations := db.reservations ++
            [⟨db.nextResId, u, spot.id, "", now, none, none⟩]
          nextResId := db.nextResId + 1 }, .ok ())

/-- `occupy_spot(reservation_id)` for user `u`, form vehicle number
`vehicle`, at time `now`: look up the user's reservation; refuse if absent
or already completed; trim the vehicle number and refuse if blank;
otherwise store the trimmed vehicle number, stamp `occupy_time = now` and
set the reservation's spot to OCCUPIED. -/
def occupy (db : DB) (u rid : Nat) (vehicle : String) (now : ℚ) :
    DB × Except AppError Unit :=
  match findUserReservation db u rid with
  | none => (db, .error .reservationNotFound)
  | some r =>
    if r.end_time ≠ none then (db, .error .alreadyCompleted)
    else
      let vehicle_number := strip vehicle
      if vehicle_number = "" then (db, .error .missingVehicleNumber)
      else
        ({ db with
            reservations := db.reservations.map (fun x =>
              if x.id = r.id then
                { x with vehicle_number := vehicle_number, occupy_time := some now }
              else x)
            spots := db.spots.map (fun s =>
              if s.id = r.parking_spot_id then { s with status := SpotStatus.occupied }
              else s) }, .ok ())

/-- `release_spot(reservation_id)` for user `u` at time `now`: look up the
user's reservation; refuse if absent or already completed; otherwise set
the spot back to AVAILABLE, stamp `end_time = now`, and return the final
cost computed by `calculate_cost` on the completed reservation. -/
def release (db : DB) (u rid : Nat) (now : ℚ) : DB × Except AppError ℚ :=
  match findUserReservation db u rid with
  | none => (db, .error .reservationNotFound)
  | some r =>
    if r.end_time ≠ none then (db, .error .alreadyCompleted)
    else
      ({ db with
          spots := db.spots.map (fun s =>
            if s.id = r.parking_spot_id then { s with status := SpotStatus.available }
            else s)
          reservations := db.reservations.map (fun x =>
            if x.id = r.id then { x with end_time := some now } else x) },
        .ok (calculate_cost r.start_time (some now) now
          (ratePerHour db r.parking_spot_id)))

/-- A lifecycle request by some user: the operations of claim C2's
sequences. -/
inductive Op where
  | reserveOp (u lotId : Nat) (now : ℚ)
  | occupyOp (u rid : Nat) (vehicle : String) (now : ℚ)
  | releaseOp (u rid : Nat) (now : ℚ)

/-- The persisted state after one lifecycle request (failures leave the
state untouched: the route redirects without committing). -/
def applyOp (db : DB) : Op → DB
  | .reserveOp u lotId now => (reserve db u lotId now).1
  | .occupyOp u rid vehicle now => (occupy db u rid vehicle now).1
  | .releaseOp u rid now => (release db u rid now).1

/-- The persisted state after a sequence of lifecycle requests. -/
def applyOps (db : DB) (ops : List Op) : DB := ops.foldl applyOp db

/-- Number of reservations of user `u` with `end_time == null`. -/
def activeCount (db : DB) (u : Nat) : Nat :=
  db.reservations.countP (fun r => decide (r.user_id = u ∧ r.end_time = none))

/-- "One active reservation per user": no user has two reservations with
`end_time == null`. -/
def OneActivePerUser (db : DB) : Prop := ∀ u, activeCount db u ≤ 1


/-! ## Concrete states used by the capacity claims -/

/-- Facility of the C1 scenario: five spots `001`..`005`, labels `004` and
`005` OCCUPIED, declared capacity 5. -/
def c1Lot : LotState :=
  ⟨1, [⟨1, "001", .available, 1⟩, ⟨2, "002", .available, 1⟩, ⟨3, "003", .available, 1⟩,
       ⟨4, "004", .occupied, 1⟩, ⟨5, "005", .occupied, 1⟩], 5, 6⟩

/-- Facility with labels `001` (AVAILABLE) and `003` (OCCUPIED), declared
capacity 1 — exactly the state `setNumberOfSpots` leaves behind when a lot
with spots `001`,`002`,`003` (`003` OCCUPIED) is shrunk from 3 to 1. -/
def c3Lot : LotState :=
  ⟨1, [⟨1, "001", .available, 1⟩, ⟨2, "003", .occupied, 1⟩], 1, 4⟩

/-- The shrink-then-grow provenance of `c3Lot`: shrinking `001`,`002`,`003`
(with `003` OCCUPIED) from 3 to 1 removes only `002` and leaves declared
capacity 1, i.e. exactly `c3Lot` up to the id counter. -/
theorem c3Lot_reachable :
    (setNumberOfSpots
      ⟨1, [⟨1, "001", .available, 1⟩, ⟨2, "002", .available, 1⟩,
           ⟨3, "003", .occupied, 1⟩], 3, 4⟩ 1).state
    = ⟨1, [⟨1, "001", .available, 1⟩, ⟨3, "003", .occupied, 1⟩], 1, 4⟩ := by decide

/-- One-spot facility used for the C9 counterexample. -/
def c9Lot : LotState := ⟨1, [⟨1, "001", SpotStatus.available, 1⟩], 1, 2⟩

/-! ## Claim C1 -/

/-- Claim C1, evaluated at the spec's own scenario (5 spots, `004` and `005`
OCCUPIED, capacity set to 2): the listener deletes only spot `003` and
records `005` and `004` as blocked, as the claim says — but the facility's
declared capacity ends at the requested value 2, not at the corrected
value 4, and therefore differs from the persisted spot count 4: the
listener's corrective assignment is overwritten when the triggering
assignment completes, so the claimed invariant fails. -/
theorem capacity_shrink_blocked_eval :
    (setNumberOfSpots c1Lot 2).removed = 1 ∧
    (setNumberOfSpots c1Lot 2).blocked = ["005(occupied)", "004(occupied)"] ∧
    (setNumberOfSpots c1Lot 2).state.spots.map Spot.spot_number
      = ["001", "002", "004", "005"] ∧
    (setNumberOfSpots c1Lot 2).state.spots.length = 4 ∧
    (setNumberOfSpots c1Lot 2).state.declared = 2 ∧
    ¬ (setNumberOfSpots c1Lot 2).state.declared = 4 ∧
    ¬ ((setNumberOfSpots c1Lot 2).state.spots.length : Int)
        = (setNumberOfSpots c1Lot 2).state.declared := by decide

/-! ## Claim C3 -/

/-- Claim C3, refuted on the reachable state `c3Lot` (spots `001` and `003`,
capacity set to 4): the two created spots are AVAILABLE as claimed, but
their labels are computed from the row count (`003`, `004`), so the new
label `003` duplicates the existing label `003` instead of being strictly
greater than every pre-existing label. -/
theorem grow_label_collision_eval :
    (setNumberOfSpots c3Lot 4).added = 2 ∧
    (setNumberOfSpots c3Lot 4).state.spots.map Spot.spot_number
      = ["001", "003", "003", "004"] ∧
    (setNumberOfSpots c3Lot 4).state.spots.drop 2
      = [⟨4, "003", .available, 1⟩, ⟨5, "004", .available, 1⟩] ∧
    ¬ (∀ snew ∈ (setNumberOfSpots c3Lot 4).state.spots.drop 2,
        ∀ sold ∈ c3Lot.spots, strLt sold.spot_number snew.spot_number = true) ∧
    ¬ ((setNumberOfSpots c3Lot 4).state.spots.map Spot.spot_number).Nodup := by decide

/-! ## Claim C5 -/

/-- Spots that are not AVAILABLE survive the removal loop: only candidates
with status AVAILABLE are deleted. -/
theorem mem_shrinkSpots_of_not_available {spots : List Spot} {k : Nat} {s : Spot}
    (hs : s ∈ spots) (hne : s.status ≠ SpotStatus.available) :
    s ∈ (shrinkSpots spots k).spots := by
  unfold shrinkSpots
  simp only [List.mem_filter, decide_eq_true_eq]
  exact ⟨hs, fun hmem => hne hmem.2⟩

/-- Non-AVAILABLE spots survive any capacity assignment, at every fuel. -/
theorem mem_setNumberOfSpotsAux_of_not_available (fuel : Nat) (st : LotState) (v : Int)
    {s : Spot} (hs : s ∈ st.spots) (hne : s.status ≠ SpotStatus.available) :
    s ∈ (setNumberOfSpotsAux fuel st v).state.spots := by
  induction fuel generalizing st v with
  | zero => simpa using hs
  | succ fuel ih =>
    simp only [setNumberOfSpotsAux]
    split
    · simpa using hs
    · split
      · simpa using hs
      · split
        · exact List.mem_append_left _ hs
        · split
          · split
            · exact mem_shrinkSpots_of_not_available hs hne
            · exact ih _ _ (mem_shrinkSpots_of_not_available hs hne)
          · simpa using hs

/-- Claim C5: a capacity decrease never deletes a spot whose status is not
AVAILABLE — every spot that is RESERVED or OCCUPIED before the assignment
of `number_of_spots` is still persisted afterwards. -/
theorem shrink_never_deletes_in_use (st : LotState) (v : Int) (s : Spot)
    (hs : s ∈ st.spots)
    (hst : s.status = SpotStatus.reserved ∨ s.status = SpotStatus.occupied) :
    s ∈ (setNumberOfSpots st v).state.spots := by
  have hne : s.status ≠ SpotStatus.available := by
    rcases hst with h | h <;> simp [h]
  exact mem_setNumberOfSpotsAux_of_not_available 2 st v hs hne

/-- Witness for C5: the OCCUPIED spot `002` of a two-spot facility survives
a shrink to capacity 1. -/
theorem shrink_never_deletes_in_use_witness :
    (⟨2, "002", SpotStatus.occupied, 1⟩ : Spot) ∈
      (setNumberOfSpots ⟨1, [⟨1, "001", .available, 1⟩, ⟨2, "002", .occupied, 1⟩], 2, 3⟩
        1).state.spots :=
  shrink_never_deletes_in_use _ 1 _ (by decide) (Or.inr rfl)

/-! ## Claim C9 -/

/-- Claim C9 counterexample: assigning the non-positive capacity 0 to
`c9Lot` does not leave the declared capacity unchanged — the reconciliation
listener skips, but the attribute assignment still goes through, so the
declared capacity becomes 0 (and no error of any kind is produced). -/
theorem invalid_capacity_counterexample :
    (setNumberOfSpots c9Lot 0).state.declared = 0 ∧
    c9Lot.declared = 1 ∧
    ¬ (setNumberOfSpots c9Lot 0).state.declared = c9Lot.declared := by decide

/-- Claim C9 as amended: a non-positive `new_capacity` makes the listener
return without touching any spot and without reporting anything, but no
`InvalidCapacity` error exists in the code and the declared capacity field
is silently overwritten with the invalid value. -/
theorem invalid_capacity_ignored (st : LotState) (v : Int) (h : v ≤ 0) :
    (setNumberOfSpots st v).state.spots = st.spots ∧
    (setNumberOfSpots st v).state.declared = v ∧
    (setNumberOfSpots st v).added = 0 ∧
    (setNumberOfSpots st v).removed = 0 ∧
    (setNumberOfSpots st v).blocked = [] := by
  simp [setNumberOfSpots, setNumberOfSpotsAux, h]

/-- Witness for the amended C9 at `c9Lot` with capacity 0. -/
theorem invalid_capacity_ignored_witness :
    (setNumberOfSpots c9Lot 0).state.spots = c9Lot.spots ∧
    (setNumberOfSpots c9Lot 0).state.declared = 0 ∧
    (setNumberOfSpots c9Lot 0).added = 0 ∧
    (setNumberOfSpots c9Lot 0).removed = 0 ∧
    (setNumberOfSpots c9Lot 0).blocked = [] :=
  invalid_capacity_ignored c9Lot 0 (by decide)

/-! ## Claim C4 -/

/-- Rounding an exact integer is the identity. -/
theorem roundHalfEven_intCast (n : ℤ) : roundHalfEven (n : ℚ) = n := by
  norm_num [roundHalfEven, ratFloor]

/-- Evaluation rule for `round2` when the cents value is an exact integer. -/
theorem round2_eq_of_mul100 (q : ℚ) (n : ℤ) (h : q * 100 = (n : ℚ)) :
    round2 q = (n : ℚ) / 100 := by
  rw [round2, h, roundHalfEven_intCast]

/-- Claim C4: `calculate_cost` returns
`round(max(1, elapsed hours) * hourly_rate, 2)`; every duration of at most
one hour is billed as exactly one hour, a 10-minute stay at rate 60.00
costs 60.00, and a 90-minute stay at rate 60.00 costs 90.00 (times in
seconds: 600 and 5400). -/
theorem billing_formula :
    (∀ (start_time now rate : ℚ) (e : Option ℚ),
      calculate_cost start_time e now rate
        = round2 (max 1 ((e.getD now - start_time) / 3600) * rate)) ∧
    (∀ (start_time now rate d : ℚ), d ≤ 3600 →
      calculate_cost start_time (some (start_time + d)) now rate = round2 rate) ∧
    calculate_cost 0 (some 600) 0 60 = 60 ∧
    calculate_cost 0 (some 5400) 0 60 = 90 := by
  refine ⟨fun s n r e => rfl, fun s n r d hd => ?_, ?_, ?_⟩
  · simp only [calculate_cost, Option.getD_some]
    have hds : s + d - s = d := by ring
    rw [hds]
    have hmax : max 1 (d / 3600) = 1 :=
      max_eq_left (by rw [div_le_one (by norm_num)]; exact hd)
    rw [hmax, one_mul]
  · simp only [calculate_cost, Option.getD_some]
    have hmax : max 1 (((600 : ℚ) - 0) / 3600) = 1 := max_eq_left (by norm_num)
    rw [hmax, one_mul, round2_eq_of_mul100 60 6000 (by norm_num)]
    norm_num
  · simp only [calculate_cost, Option.getD_some]
    have hdur : ((5400 : ℚ) - 0) / 3600 = 3 / 2 := by norm_num
    rw [hdur, max_eq_right (by norm_num : (1 : ℚ) ≤ 3 / 2),
      round2_eq_of_mul100 (3 / 2 * 60) 9000 (by norm_num)]
    norm_num

/-- Witness for C4's minimum-hour clause: a 30-minute stay at rate 50 is
billed as one full hour. -/
theorem billing_formula_witness :
    calculate_cost 0 (some (0 + 1800)) 0 50 = round2 50 :=
  billing_formula.2.1 0 0 50 1800 (by norm_num)


/-! ## Claim C2 -/

/-- `hasActiveReservation` agrees with a positive `activeCount`. -/
theorem hasActive_true_iff (db : DB) (u : Nat) :
    hasActiveReservation db u = true ↔ 0 < activeCount db u := by
  unfold hasActiveReservation activeCount
  rw [List.find?_isSome, List.countP_pos_iff]

/-- When the controller's active-reservation check fails, the user really
has zero open reservations. -/
theorem activeCount_eq_zero (db : DB) (u : Nat)
    (h : hasActiveReservation db u = false) : activeCount db u = 0 := by
  by_contra hne
  have hpos : 0 < activeCount db u := Nat.pos_of_ne_zero hne
  exact absurd ((hasActive_true_iff db u).mpr hpos) (by simp [h])

/-- Every single lifecycle request preserves the one-active-reservation
invariant. -/
theorem applyOp_preserves_oneActive (db : DB) (op : Op)
    (h : OneActivePerUser db) : OneActivePerUser (applyOp db op) := by
  cases op with
  | reserveOp u lotId now =>
    show OneActivePerUser (reserve db u lotId now).1
    by_cases hA : hasActiveReservation db u = true
    · unfold reserve; simp only [hA, if_true]; exact h
    · have hA' : hasActiveReservation db u = false := by simpa using hA
      cases hS : findAvailableSpot db lotId with
      | none => unfold reserve; simp only [hA', hS]; simpa using h
      | some spot =>
        unfold reserve
        simp only [hA', hS]
        intro u'
        show List.countP (fun r => decide (r.user_id = u' ∧ r.end_time = none))
          (db.reservations ++
            [(⟨db.nextResId, u, spot.id, "", now, none, none⟩ : Reservation)]) ≤ 1
        rw [List.countP_append]
        by_cases hu : u' = u
        · subst hu
          have h0 : activeCount db u' = 0 := activeCount_eq_zero db u' hA'
          unfold activeCount at h0
          rw [h0]
          simp
        · have h1 := h u'
          unfold activeCount at h1
          have h2 : List.countP
              (fun r => decide (r.user_id = u' ∧ r.end_time = none))
              [(⟨db.nextResId, u, spot.id, "", now, none, none⟩ : Reservation)] = 0 := by
            simp [Ne.symm hu]
          omega
  | occupyOp u rid vehicle now =>
    show OneActivePerUser (occupy db u rid vehicle now).1
    unfold occupy
    cases hf : findUserReservation db u rid with
    | none => simpa using h
    | some r =>
      by_cases he : r.end_time = none
      · by_cases hb : strip vehicle = ""
        · simp only [he, hb]; simpa using h
        · simp only [he, hb]
          intro u'
          show (db.reservations.map _).countP _ ≤ 1
          rw [List.countP_map]
          refine le_trans (le_of_eq (List.countP_congr fun x hx => ?_)) (h u')
          by_cases hid : x.id = r.id <;> simp [Function.comp, hid]
      · simp only [he]
        simpa [he] using h
  | releaseOp u rid now =>
    show OneActivePerUser (release db u rid now).1
    unfold release
    cases hf : findUserReservation db u rid with
    | none => simpa using h
    | some r =>
      by_cases he : r.end_time = none
      · simp only [he]
        intro u'
        show (db.reservations.map _).countP _ ≤ 1
        rw [List.countP_map]
        refine le_trans (List.countP_mono_left fun x hx => ?_) (h u')
        by_cases hid : x.id = r.id <;> simp [Function.comp, hid]
      · simpa [he] using h

/-- Whole sequences of lifecycle requests preserve the invariant. -/
theorem applyOps_preserves_oneActive (db : DB) (ops : List Op)
    (h : OneActivePerUser db) : OneActivePerUser (applyOps db ops) := by
  induction ops generalizing db with
  | nil => simpa [applyOps] using h
  | cons op ops ih =>
    show OneActivePerUser (List.foldl applyOp db (op :: ops))
    rw [List.foldl_cons]
    exact ih (applyOp db op) (applyOp_preserves_oneActive db op h)

/-- Claim C2: starting from any state satisfying the invariant, every
sequence of reserve/occupy/release requests keeps at most one open
reservation (`end_time == null`) per user, and `reserve` refuses with
`AlreadyActiveReservation` whenever the calling user already has an open
reservation. -/
theorem one_active_reservation_invariant (db : DB) (ops : List Op)
    (h : OneActivePerUser db) :
    OneActivePerUser (applyOps db ops) ∧
    ∀ (db' : DB) (u lotId : Nat) (now : ℚ), 0 < activeCount db' u →
      (reserve db' u lotId now).2
        = Except.error AppError.alreadyActiveReservation := by
  refine ⟨applyOps_preserves_oneActive db ops h, fun db' u lotId now hpos => ?_⟩
  unfold reserve
  rw [if_pos ((hasActive_true_iff db' u).mpr hpos)]

/-- Fresh single-lot database with no reservations. -/
def dbFresh : DB := ⟨[⟨1, 10⟩], [⟨1, "001", .available, 1⟩], [], 5⟩

/-- Database where user 1 already holds the open reservation 1 on spot 1. -/
def dbActive : DB :=
  ⟨[⟨1, 10⟩], [⟨1, "001", .reserved, 1⟩], [⟨1, 1, 1, "", 0, none, none⟩], 2⟩

/-- Witness for C2: a concrete reserve/occupy/release run from an empty
reservation table keeps the invariant, and a reserve by a user who already
holds an open reservation is refused. -/
theorem one_active_reservation_invariant_witness :
    OneActivePerUser (applyOps dbFresh
      [Op.reserveOp 1 1 0, Op.occupyOp 1 1 "KA01AB1234" 600, Op.releaseOp 1 1 3600]) ∧
    (reserve dbActive 1 1 60).2
      = Except.error AppError.alreadyActiveReservation :=
  ⟨(one_active_reservation_invariant dbFresh
      [Op.reserveOp 1 1 0, Op.occupyOp 1 1 "KA01AB1234" 600, Op.releaseOp 1 1 3600]
      (fun u => by simp [activeCount, dbFresh])).1,
   (one_active_reservation_invariant dbFresh []
      (fun u => by simp [activeCount, dbFresh])).2 dbActive 1 1 60 (by decide)⟩


/-! ## Claim C6 -/

/-- Claim C6: `reserve` fails with `AlreadyActiveReservation` exactly when
the calling user has an open reservation; fails with `NoAvailableSpot`
exactly when that check passes and the lot has no AVAILABLE spot; on any
failure the state is unchanged; and otherwise the spot found by the
AVAILABLE lookup (a spot of the lot with status AVAILABLE) is set to
RESERVED and a reservation with blank vehicle number, `start_time = now`
and null `occupy_time`/`end_time` is inserted. -/
theorem reserve_spec (db : DB) (u lotId : Nat) (now : ℚ) :
    ((reserve db u lotId now).2 = Except.error AppError.alreadyActiveReservation ↔
      hasActiveReservation db u = true) ∧
    ((reserve db u lotId now).2 = Except.error AppError.noAvailableSpot ↔
      (hasActiveReservation db u = false ∧
        ∀ s ∈ db.spots, ¬(s.lotId = lotId ∧ s.status = SpotStatus.available))) ∧
    (∀ e : AppError, (reserve db u lotId now).2 = Except.error e →
      (reserve db u lotId now).1 = db) ∧
    (∀ spot : Spot, hasActiveReservation db u = false →
      findAvailableSpot db lotId = some spot →
      spot.lotId = lotId ∧ spot.status = SpotStatus.available ∧
      reserve db u lotId now =
        ({ db with
            spots := db.spots.map (fun s =>
              if s.id = spot.id then { s with status := SpotStatus.reserved } else s)
            reservations := db.reservations ++
              [⟨db.nextResId, u, spot.id, "", now, none, none⟩]
            nextResId := db.nextResId + 1 }, Except.ok ())) := by
  by_cases hA : hasActiveReservation db u = true
  · have hr : reserve db u lotId now
        = (db, Except.error AppError.alreadyActiveReservation) := by
      unfold reserve; rw [if_pos hA]
    refine ⟨by simp [hr, hA], by simp [hr, hA], fun e _ => by simp [hr], ?_⟩
    intro spot hfalse _
    rw [hA] at hfalse
    exact Bool.noConfusion hfalse
  · have hA' : hasActiveReservation db u = false := by simpa using hA
    cases hS : findAvailableSpot db lotId with
    | none =>
      have hr : reserve db u lotId now
          = (db, Except.error AppError.noAvailableSpot) := by
        unfold reserve; rw [if_neg (by simp [hA']), hS]
      have hnone : ∀ s ∈ db.spots, ¬(s.lotId = lotId ∧ s.status = SpotStatus.available) := by
        intro s hs hc
        have h' := List.find?_eq_none.mp hS s hs
        exact h' (decide_eq_true hc)
      refine ⟨by simp [hr, hA'], ?_, fun e _ => by simp [hr], ?_⟩
      · rw [hr]
        exact ⟨fun _ => ⟨hA', hnone⟩, fun _ => rfl⟩
      · intro spot _ hsome
        exact Option.noConfusion hsome
    | some spot0 =>
      have hp := List.find?_some hS
      have hmem := List.mem_of_find?_eq_some hS
      have hprop : spot0.lotId = lotId ∧ spot0.status = SpotStatus.available :=
        decide_eq_true_eq.mp hp
      have hr : reserve db u lotId now =
          ({ db with
              spots := db.spots.map (fun s =>
                if s.id = spot0.id then { s with status := SpotStatus.reserved } else s)
              reservations := db.reservations ++
                [⟨db.nextResId, u, spot0.id, "", now, none, none⟩]
              nextResId := db.nextResId + 1 }, Except.ok ()) := by
        unfold reserve; rw [if_neg (by simp [hA']), hS]
      refine ⟨by simp [hr, hA'], ?_, fun e he => ?_, ?_⟩
      · rw [hr]
        constructor
        · intro habs; exact absurd habs (by simp)
        · rintro ⟨-, hall⟩
          exact absurd hprop (hall spot0 hmem)
      · rw [hr] at he
        exact absurd he (by simp)
      · intro spot _ hsome
        obtain rfl : spot0 = spot := Option.some.inj hsome
        exact ⟨hprop.1, hprop.2, hr⟩

/-- Witness for C6: in a fresh database, user 7 reserving lot 1 succeeds
and produces exactly the specified state. -/
theorem reserve_spec_witness :
    reserve dbFresh 7 1 0 =
      ({ dbFresh with
          spots := dbFresh.spots.map (fun s =>
            if s.id = 1 then { s with status := SpotStatus.reserved } else s)
          reservations := dbFresh.reservations ++ [⟨5, 7, 1, "", 0, none, none⟩]
          nextResId := 6 }, Except.ok ()) :=
  ((reserve_spec dbFresh 7 1 0).2.2.2 ⟨1, "001", SpotStatus.available, 1⟩ rfl rfl).2.2

/-! ## Claim C7 -/

/-- Claim C7: for an existing reservation of the calling user with
`end_time == null`, `occupy` with a vehicle number that is blank after
stripping whitespace fails with `MissingVehicleNumber` and leaves the
state (spot status, vehicle number, occupy time) completely unchanged. -/
theorem occupy_blank_vehicle_rejected (db : DB) (u rid : Nat) (vehicle : String)
    (now : ℚ) (r : Reservation)
    (h1 : findUserReservation db u rid = some r)
    (h2 : r.end_time = none)
    (h3 : strip vehicle = "") :
    occupy db u rid vehicle now = (db, Except.error AppError.missingVehicleNumber) := by
  unfold occupy
  rw [h1]
  simp [h2, h3]

/-- Database where user 1 holds the open (merely reserved) reservation 1. -/
def dbOneRes : DB :=
  ⟨[⟨1, 10⟩], [⟨1, "001", .reserved, 1⟩], [⟨1, 1, 1, "", 0, none, none⟩], 2⟩

/-- Witness for C7: a whitespace-only vehicle number is rejected. -/
theorem occupy_blank_vehicle_rejected_witness :
    occupy dbOneRes 1 1 "   " 600 = (dbOneRes, Except.error AppError.missingVehicleNumber) :=
  occupy_blank_vehicle_rejected dbOneRes 1 1 "   " 600 ⟨1, 1, 1, "", 0, none, none⟩
    rfl rfl rfl


/-! ## Claim C8 -/

/-- Claim C8: `release` fails with `ReservationNotFound` when the user has
no such reservation and with `AlreadyCompleted` when its `end_time` is
already set, both without changing anything; otherwise it sets the
reservation's spot back to AVAILABLE, stamps `end_time = now`, and returns
the cost computed by the billing function on the completed reservation. -/
theorem release_spec (db : DB) (u rid : Nat) (now : ℚ) :
    (findUserReservation db u rid = none →
      release db u rid now = (db, Except.error AppError.reservationNotFound)) ∧
    (∀ (r : Reservation) (t : ℚ), findUserReservation db u rid = some r →
      r.end_time = some t →
      release db u rid now = (db, Except.error AppError.alreadyCompleted)) ∧
    (∀ r : Reservation, findUserReservation db u rid = some r → r.end_time = none →
      release db u rid now =
        ({ db with
            spots := db.spots.map (fun s =>
              if s.id = r.parking_spot_id then { s with status := SpotStatus.available }
              else s)
            reservations := db.reservations.map (fun x =>
              if x.id = r.id then { x with end_time := some now } else x) },
          Except.ok (calculate_cost r.start_time (some now) now
            (ratePerHour db r.parking_spot_id)))) := by
  refine ⟨fun h => ?_, fun r t h ht => ?_, fun r h hn => ?_⟩
  · unfold release; rw [h]
  · unfold release; rw [h]; simp [ht]
  · unfold release; rw [h]; simp [hn]

/-- Witness for C8: releasing the open reservation of `dbOneRes` one hour
in frees the spot, completes the reservation, and returns the billed
cost. -/
theorem release_spec_witness :
    release dbOneRes 1 1 3600 =
      ({ dbOneRes with
          spots := dbOneRes.spots.map (fun s =>
            if s.id = 1 then { s with status := SpotStatus.available } else s)
          reservations := dbOneRes.reservations.map (fun x =>
            if x.id = 1 then { x with end_time := some 3600 } else x) },
        Except.ok (calculate_cost 0 (some 3600) 3600 (ratePerHour dbOneRes 1))) :=
  (release_spec dbOneRes 1 1 3600).2.2 ⟨1, 1, 1, "", 0, none, none⟩ rfl rfl

/-! ## Claim C10 -/

/-- Claim C10: re-occupying an already-OCCUPIED (but not completed)
reservation with a non-blank vehicle number succeeds — the vehicle number
is overwritten with the stripped value, `occupy_time` is reset to the
current time and the spot is (still) OCCUPIED — and, given ownership and a
non-blank vehicle number, a repeated `occupy` is rejected exactly when
`end_time` is set. -/
theorem occupy_reoccupy (db : DB) (u rid : Nat) (vehicle : String) (now t0 : ℚ)
    (r : Reservation)
    (h1 : findUserReservation db u rid = some r)
    (h2 : r.occupy_time = some t0)
    (h3 : ¬ strip vehicle = "") :
    (r.end_time = none →
      occupy db u rid vehicle now =
        ({ db with
            reservations := db.reservations.map (fun x =>
              if x.id = r.id then
                { x with vehicle_number := strip vehicle, occupy_time := some now }
              else x)
            spots := db.spots.map (fun s =>
              if s.id = r.parking_spot_id then { s with status := SpotStatus.occupied }
              else s) }, Except.ok ()) ∧
      ∀ s ∈ (occupy db u rid vehicle now).1.spots,
        s.id = r.parking_spot_id → s.status = SpotStatus.occupied) ∧
    ((occupy db u rid vehicle now).2 = Except.error AppError.alreadyCompleted ↔
      ¬ r.end_time = none) := by
  by_cases hend : r.end_time = none
  · have heq : occupy db u rid vehicle now =
        ({ db with
            reservations := db.reservations.map (fun x =>
              if x.id = r.id then
                { x with vehicle_number := strip vehicle, occupy_time := some now }
              else x)
            spots := db.spots.map (fun s =>
              if s.id = r.parking_spot_id then { s with status := SpotStatus.occupied }
              else s) }, Except.ok ()) := by
      unfold occupy; rw [h1]; simp [hend, h3]
    refine ⟨fun _ => ⟨heq, ?_⟩, by simp [heq, hend]⟩
    rw [heq]
    intro s hs hsid
    obtain ⟨a, ha, rfl⟩ := List.mem_map.mp hs
    by_cases hid : a.id = r.parking_spot_id
    · simp [hid]
    · rw [if_neg hid] at hsid ⊢
      exact absurd hsid hid
  · have heq : occupy db u rid vehicle now = (db, Except.error AppError.alreadyCompleted) := by
      unfold occupy; rw [h1]; simp [hend]
    exact ⟨fun habs => absurd habs hend, by simp [heq, hend]⟩

/-- Database where user 1's reservation 1 is already OCCUPIED (vehicle
registered, `occupy_time` stamped, `end_time` null). -/
def dbOccRes : DB :=
  ⟨[⟨1, 10⟩], [⟨1, "001", .occupied, 1⟩], [⟨1, 1, 1, "KA01AB1234", 0, some 60, none⟩], 2⟩

/-- Witness for C10: re-occupying the already-OCCUPIED reservation of
`dbOccRes` with a new vehicle number succeeds and rewrites the vehicle
number and occupy time. -/
theorem occupy_reoccupy_witness :
    occupy dbOccRes 1 1 "MH12XY99" 120 =
      ({ dbOccRes with
          reservations := dbOccRes.reservations.map (fun x =>
            if x.id = 1 then
              { x with vehicle_number := strip "MH12XY99", occupy_time := some 120 }
            else x)
          spots := dbOccRes.spots.map (fun s =>
            if s.id = 1 then { s with status := SpotStatus.occupied } else s) },
        Except.ok ()) :=
  ((occupy_reoccupy dbOccRes 1 1 "MH12XY99" 120 60 ⟨1, 1, 1, "KA01AB1234", 0, some 60, none⟩
    rfl rfl (by decide)).1 rfl).1

end Parking
